import Mathlib

/-!
Verification development for the web3-proxy repository.

Shallow embedding of the three source files
`src/bin/web3_proxy.rs`, `src/frontend/rpc_proxy_ws.rs` and
`src/rpcs/synced_connections.rs`.

Modelling conventions:
* `serde_json::value::RawValue` (raw JSON text) is modelled as `String`;
  its `to_string()` is the identity.
* A Rust `panic` (an `unwrap()` on `None` or on invalid UTF-8) is
  modelled by a function returning `Option` with value `none`.
* External collaborators that live outside the three source files
  (`Web3ProxyApp::eth_subscribe`, `Web3ProxyApp::proxy_web3_rpc`,
  `serde_json::from_str`, the handlebars renderer, authorization) are
  parameters of the embedded functions, or small models whose doc
  comment says so.
-/

namespace Web3Proxy

/-- Raw JSON text, the model of `serde_json::value::RawValue`. -/
abbrev RawValue := String

/-- Model of `JsonRpcRequest` (jsonrpc.rs): the fields the websocket
handler reads: `id`, `method` and the optional raw `params`. -/
structure JsonRpcRequest where
  id : RawValue
  method : String
  params : Option RawValue
deriving Repr, DecidableEq

/-- Model of `JsonRpcForwardedResponse`: the response id together with
either a raw result or an error message. -/
structure JsonRpcForwardedResponse where
  id : RawValue
  result : Option RawValue
  error : Option String
deriving Repr, DecidableEq

/-- Model of `JsonRpcForwardedResponse::from_value(json!(v), id)`:
a result-carrying response. -/
def JsonRpcForwardedResponse.from_value (result : RawValue) (id : RawValue) :
    JsonRpcForwardedResponse :=
  { id := id, result := some result, error := none }

/-- Modelled from the spec: `JsonRpcForwardedResponse::from_anyhow_error`
lives in jsonrpc.rs, which is not among the given source files; per the
spec it fabricates a JSON-RPC error envelope carrying the given id
(raw text, `"null"` when the request id could not be parsed). -/
def JsonRpcForwardedResponse.from_anyhow_error (err : String) (id : RawValue) :
    JsonRpcForwardedResponse :=
  { id := id, result := none, error := some err }

/-- The raw JSON text of `json!(b)` for a boolean `b`. -/
def jsonBool (b : Bool) : RawValue := if b then "true" else "false"

/-- The per-connection subscription table
(`HashMap<String, AbortHandle>`), modelled as an association list from
subscription-id text to an abort-handle identifier. -/
abbrev Subs := List (String × Nat)

/-- Lookup in the subscription table. -/
def Subs.lookupKey : Subs → String → Option Nat
  | [], _ => none
  | (k', v) :: rest, k => if k' = k then some v else Subs.lookupKey rest k

/-- `HashMap::insert`: replace the binding of an existing key, or add a
new binding. -/
def Subs.insert : Subs → String → Nat → Subs
  | [], k, v => [(k, v)]
  | (k', v') :: rest, k, v =>
      if k' = k then (k, v) :: rest else (k', v') :: Subs.insert rest k v

/-- `HashMap::remove`: the removed value (if any) and the remaining
table. -/
def Subs.removeKey : Subs → String → Option Nat × Subs
  | [], _ => (none, [])
  | (k', v') :: rest, k =>
      if k' = k then (some v', rest)
      else
        let r := Subs.removeKey rest k
        (r.1, (k', v') :: r.2)

/-- The collaborator `Web3ProxyApp` (app.rs is not among the given
source files): the two calls the websocket handler makes, abstracted as
functions of the parsed request.  `eth_subscribe` returns an abort
handle and the subscribe response; either call may fail with an anyhow
error message. -/
structure AppModel where
  eth_subscribe : JsonRpcRequest → Except String (Nat × JsonRpcForwardedResponse)
  proxy_web3_rpc : JsonRpcRequest → Except String JsonRpcForwardedResponse

/-- An outgoing `Message` (axum websocket): the handler only ever builds
`Message::Text` of a serialized response, and the read loop builds
`Message::Pong`.  The text payload is kept as the structured response
(serialization is serde's). -/
inductive Message
  | text (resp : JsonRpcForwardedResponse)
  | pong (payload : List Nat)
deriving Repr, DecidableEq

/-- What one call of `handle_socket_payload` produces: the returned
message, the updated subscription table, and the abort handles whose
`abort()` was called during the call. -/
structure HandleOutcome where
  message : Message
  subscriptions : Subs
  aborted : List Nat
deriving Repr, DecidableEq

/-- Embedding of `handle_socket_payload` (rpc_proxy_ws.rs lines
149-232).  `parse` stands for `serde_json::from_str::<JsonRpcRequest>`.
`none` models a panic: `payload.params.unwrap()` on an absent `params`
of an `eth_unsubscribe`, or `response.result.as_ref().unwrap()` on a
result-less subscribe response. -/
def handle_socket_payload (app : AppModel)
    (parse : String → Except String JsonRpcRequest)
    (payload : String) (subscriptions : Subs) : Option HandleOutcome :=
  match parse payload with
  | .ok p =>
    let id := p.id
    if p.method = "eth_subscribe" then
      match app.eth_subscribe p with
      | .ok (handle, response) =>
        match response.result with
        | some r => some ⟨.text response, subscriptions.insert r handle, []⟩
        | none => none
      | .error err =>
        some ⟨.text (JsonRpcForwardedResponse.from_anyhow_error err id),
              subscriptions, []⟩
    else if p.method = "eth_unsubscribe" then
      match p.params with
      | none => none
      | some ps =>
        let r := subscriptions.removeKey ps
        match r.1 with
        | none =>
          some ⟨.text (JsonRpcForwardedResponse.from_value (jsonBool false) id),
                r.2, []⟩
        | some h =>
          some ⟨.text (JsonRpcForwardedResponse.from_value (jsonBool true) id),
                r.2, [h]⟩
    else
      match app.proxy_web3_rpc p with
      | .ok resp => some ⟨.text resp, subscriptions, []⟩
      | .error err =>
        some ⟨.text (JsonRpcForwardedResponse.from_anyhow_error err id),
              subscriptions, []⟩
  | .error err =>
    some ⟨.text (JsonRpcForwardedResponse.from_anyhow_error err "null"),
          subscriptions, []⟩

/-- Whether a byte is a UTF-8 continuation byte (`0x80..0xBF`). -/
def isCont (b : Nat) : Bool := 128 ≤ b && b ≤ 191

/-- UTF-8 decoding of a byte list, the semantics of
`std::str::from_utf8_mut`: `none` exactly on invalid UTF-8 (overlong
forms, surrogates, out-of-range code points and truncated sequences
rejected). -/
def utf8Decode : List Nat → Option (List Char)
  | [] => some []
  | b0 :: bs1 =>
    if b0 < 128 then
      (utf8Decode bs1).map fun cs => Char.ofNat b0 :: cs
    else if b0 < 194 then
      none
    else if b0 < 224 then
      match bs1 with
      | b1 :: bs2 =>
        if isCont b1 then
          (utf8Decode bs2).map fun cs =>
            Char.ofNat (64 * (b0 - 192) + (b1 - 128)) :: cs
        else none
      | [] => none
    else if b0 < 240 then
      match bs1 with
      | b1 :: b2 :: bs3 =>
        let cp := 4096 * (b0 - 224) + 64 * (b1 - 128) + (b2 - 128)
        if isCont b1 && isCont b2 && decide (2048 ≤ cp) &&
            !(decide (55296 ≤ cp) && decide (cp ≤ 57343)) then
          (utf8Decode bs3).map fun cs => Char.ofNat cp :: cs
        else none
      | _ => none
    else if b0 < 245 then
      match bs1 with
      | b1 :: b2 :: b3 :: bs4 =>
        let cp := 262144 * (b0 - 240) + 4096 * (b1 - 128) +
          64 * (b2 - 128) + (b3 - 128)
        if isCont b1 && isCont b2 && isCont b3 &&
            decide (65536 ≤ cp) && decide (cp ≤ 1114111) then
          (utf8Decode bs4).map fun cs => Char.ofNat cp :: cs
        else none
      | _ => none
    else none

/-- UTF-8 decoding to a `String`. -/
def utf8DecodeString (bs : List Nat) : Option String :=
  (utf8Decode bs).map String.mk

/-- An incoming websocket frame (`axum::extract::ws::Message`). -/
inductive Frame
  | text (payload : String)
  | binary (payload : List Nat)
  | ping (payload : List Nat)
  | pong (payload : List Nat)
  | close
deriving Repr, DecidableEq

/-- What one iteration of the `read_web3_socket` loop body does with a
frame: the messages enqueued on `response_sender` (in order), the
updated subscription table, the handles aborted, and whether the loop
continues to the next frame. -/
structure StepOutcome where
  sent : List Message
  subscriptions : Subs
  aborted : List Nat
  continues : Bool
deriving Repr, DecidableEq

/-- Embedding of one iteration of the `while let` loop of
`read_web3_socket` (rpc_proxy_ws.rs lines 243-289), including the
`response_sender.send_async` of the produced message.  `none` models a
panic: `handle_socket_payload`'s own panics, and
`from_utf8_mut(&mut payload).unwrap()` on a binary frame whose payload
is not valid UTF-8. -/
def read_step (app : AppModel)
    (parse : String → Except String JsonRpcRequest)
    (subscriptions : Subs) : Frame → Option StepOutcome
  | .text payload =>
    (handle_socket_payload app parse payload subscriptions).map fun o =>
      ⟨[o.message], o.subscriptions, o.aborted, true⟩
  | .binary payload =>
    match utf8DecodeString payload with
    | none => none
    | some s =>
      (handle_socket_payload app parse s subscriptions).map fun o =>
        ⟨[o.message], o.subscriptions, o.aborted, true⟩
  | .ping x => some ⟨[.pong x], subscriptions, [], true⟩
  | .pong _ => some ⟨[], subscriptions, [], true⟩
  | .close => some ⟨[], subscriptions, [], false⟩

/-- Embedding of `read_web3_socket` over a finite list of incoming
frames: the ordered list of messages enqueued on `response_sender`.
Each frame is fully handled (await included) before the next frame is
read; the loop breaks on a Close frame; `none` models a panic.  Channel
sends are modelled as succeeding (the channel is unbounded; a send only
errs once the writer is gone). -/
def read_web3_socket (app : AppModel)
    (parse : String → Except String JsonRpcRequest) :
    Subs → List Frame → Option (List Message)
  | _, [] => some []
  | subs, f :: fs =>
    match read_step app parse subs f with
    | none => none
    | some o =>
      if o.continues then
        (read_web3_socket app parse o.subscriptions fs).map fun ms => o.sent ++ ms
      else
        some o.sent

/-- Embedding of `write_web3_socket` (rpc_proxy_ws.rs lines 292-312):
the writer dequeues the channel in FIFO order and forwards each message
to the websocket, breaking on the first failed send.  `sendOk` models
whether `ws_tx.send` succeeds for a message; the value is the list of
messages actually written, in order. -/
def write_web3_socket (sendOk : Message → Bool) : List Message → List Message
  | [] => []
  | m :: ms => if sendOk m then m :: write_web3_socket sendOk ms else []

/-- Decidable equality for `Except`, for concrete evaluation. -/
def exceptDecEq {ε α : Type} [DecidableEq ε] [DecidableEq α] :
    DecidableEq (Except ε α)
  | .ok x, .ok y =>
    if h : x = y then isTrue (congrArg Except.ok h)
    else isFalse fun hh => h (Except.ok.inj hh)
  | .error x, .error y =>
    if h : x = y then isTrue (congrArg Except.error h)
    else isFalse fun hh => h (Except.error.inj hh)
  | .ok _, .error _ => isFalse fun hh => Except.noConfusion hh
  | .error _, .ok _ => isFalse fun hh => Except.noConfusion hh

instance {ε α : Type} [DecidableEq ε] [DecidableEq α] :
    DecidableEq (Except ε α) := exceptDecEq

/-- Which branch of the `tokio::select!` in `run` (web3_proxy.rs lines
95-136) fired, and with what value.  Each branch carries an
`anyhow::Result` (error modelled as its message). -/
inductive SelectOutcome
  | app_handles (r : Except String Unit)
  | frontend (r : Except String Unit)
  | prometheus (r : Except String Unit)
  | ctrl_c (r : Except String Unit)
  | shutdown_recv (r : Except String Unit)
deriving Repr, DecidableEq

/-- The error carried by the fired select branch, if any: every branch
of the select does `return Err(e)` on its error case. -/
def SelectOutcome.err : SelectOutcome → Option String
  | .app_handles (.error e) => some e
  | .frontend (.error e) => some e
  | .prometheus (.error e) => some e
  | .ctrl_c (.error e) => some e
  | .shutdown_recv (.error e) => some e
  | _ => none

/-- The result of awaiting one background `JoinHandle`: the outer
`Except` is the join result (`Err` = join error), the inner one the
task's own `anyhow::Result`. -/
abbrev BgResult := Except String (Except String Unit)

/-- Whether an awaited background handle counts as an error in the
drain loop of `run` (web3_proxy.rs lines 146-158): both a join error
and an `Ok(Err(_))` task error increment `background_errors`. -/
def bgIsError (r : BgResult) : Bool :=
  match r with
  | .ok (.ok _) => false
  | _ => true

/-- Everything observable about one execution of the body of `run`
after the servers were spawned. -/
structure RunResult where
  result : Except String Unit
  broadcast_sent : Bool
  drained : List BgResult
  background_errors : Nat
deriving Repr, DecidableEq

/-- Embedding of the tail of `run` (web3_proxy.rs lines 95-168): the
`tokio::select!`, the shutdown broadcast, and the drain of
`background_handles`.  When the fired branch carries an error, the
async block does `return Err(e)` at once: nothing is broadcast and no
background handle is awaited.  Otherwise the shutdown signal is sent,
every background handle is awaited, errors are counted and logged, and
the block returns `Ok(())` regardless of the count. -/
def run (sel : SelectOutcome) (background_handles : List BgResult) : RunResult :=
  match sel.err with
  | some e =>
    { result := .error e, broadcast_sent := false, drained := [],
      background_errors := 0 }
  | none =>
    { result := .ok (), broadcast_sent := true, drained := background_handles,
      background_errors := (background_handles.filter bgIsError).length }

/-- Model of a `SavedBlock` (only identity matters here). -/
structure SavedBlock where
  hash : Nat
  number : Nat
deriving Repr, DecidableEq

/-- Model of a `Web3Connection` (only identity matters here). -/
structure Web3Connection where
  name : String
deriving Repr, DecidableEq

/-- `SyncedConnections` (synced_connections.rs lines 12-18): the
atomically published snapshot. -/
structure SyncedConnections where
  head_block : Option SavedBlock
  conns : List Web3Connection
deriving Repr, DecidableEq

/-- `Web3Connections`, reduced to the state its accessors in
synced_connections.rs read: the currently published snapshot
(`self.synced_connections.load()`). -/
structure Web3Connections where
  synced_connections : SyncedConnections
deriving Repr, DecidableEq

/-- Embedding of `Web3Connections::synced` (synced_connections.rs lines
52-54): `!self.synced_connections.load().conns.is_empty()`. -/
def Web3Connections.synced (self : Web3Connections) : Bool :=
  !self.synced_connections.conns.isEmpty

/-- The config fields the websocket handlers read (config.rs is not
among the given source files; the fields are used as strings). -/
structure AppConfig where
  redirect_public_url : String
  redirect_user_url : String
deriving Repr, DecidableEq

/-- What a websocket handler returns on an authorized request: either
the websocket upgrade or a redirect to a URL. -/
inductive HandlerResponse
  | upgrade
  | redirect (url : String)
deriving Repr, DecidableEq

/-- Helper of the template renderer: after an opening `\x7b\x7b`, read
the placeholder name up to the closing `\x7d\x7d`. -/
def splitName : List Char → Option (List Char × List Char)
  | [] => none
  | [_] => none
  | c :: c2 :: rest =>
    if c = '\x7d' ∧ c2 = '\x7d' then some ([], rest)
    else (splitName (c2 :: rest)).map fun p => (c :: p.1, p.2)

/-- The remainder returned by `splitName` is strictly shorter than its
input. -/
theorem splitName_length :
    ∀ (cs : List Char) (p : List Char × List Char),
      splitName cs = some p → p.2.length < cs.length := by
  intro cs
  induction cs with
  | nil => intro p h; simp [splitName] at h
  | cons c rest ih =>
    cases rest with
    | nil => intro p h; simp [splitName] at h
    | cons c2 rest2 =>
      intro p h
      simp only [splitName] at h
      split at h
      · cases h
        simp only [List.length_cons]
        omega
      · cases hs : splitName (c2 :: rest2) with
        | none => rw [hs] at h; simp at h
        | some q =>
          rw [hs] at h
          simp only [Option.map_some'] at h
          cases h
          have := ih q hs
          simp only [List.length_cons] at this ⊢
          omega

/-- Modelled from the spec: the handlebars render of a template
(handlebars is an external crate).  Only `\x7b\x7bname\x7d\x7d`
placeholders are recognized; a placeholder present in the data map is
replaced by its value, an unknown one renders empty. -/
def renderChars (env : List (String × String)) (cs : List Char) : List Char :=
  match cs with
  | [] => []
  | '\x7b' :: '\x7b' :: rest =>
    match h : splitName rest with
    | some p =>
      (match env.lookup (String.mk p.1) with
       | some v => v.toList
       | none => []) ++ renderChars env p.2
    | none => '\x7b' :: '\x7b' :: rest
  | c :: rest => c :: renderChars env rest
termination_by cs.length
decreasing_by
  · have := splitName_length rest p h
    simp
    omega
  all_goals simp [Nat.lt_succ_iff]

/-- Modelled from the spec: `Handlebars::render_template` on a template
string with a JSON data map. -/
def render_template (template : String) (env : List (String × String)) : String :=
  String.mk (renderChars env template.toList)

/-- Embedding of the tail of `websocket_handler` (rpc_proxy_ws.rs lines
62-72), after authorization succeeded: upgrade when the request is a
websocket upgrade, otherwise redirect to `config.redirect_public_url`. -/
def websocket_handler (config : AppConfig) : Option Unit → HandlerResponse
  | some _ => .upgrade
  | none => .redirect config.redirect_public_url

/-- Embedding of the tail of `websocket_handler_with_key`
(rpc_proxy_ws.rs lines 105-125), after authorization succeeded: upgrade
when the request is a websocket upgrade, otherwise redirect to
`config.redirect_user_url` rendered with the single data binding
`authorized_request` (the serialized `AuthorizedRequest`, modelled as a
string). -/
def websocket_handler_with_key (config : AppConfig)
    (authorized_request : String) : Option Unit → HandlerResponse
  | some _ => .upgrade
  | none =>
    .redirect (render_template config.redirect_user_url
      [("authorized_request", authorized_request)])

/-- A sample collaborator app whose calls all fail (used to evaluate
the embedding on concrete inputs). -/
def mockApp : AppModel :=
  { eth_subscribe := fun _ => .error "no ws backend",
    proxy_web3_rpc := fun _ => .error "unavailable" }

/-- A sample collaborator app whose `eth_subscribe` succeeds with
subscription id `0xabc` and abort handle `7`. -/
def subApp : AppModel :=
  { eth_subscribe := fun _ =>
      .ok (7, { id := "1", result := some "0xabc", error := none }),
    proxy_web3_rpc := fun _ => .error "unavailable" }

/-- A sample parse function recognizing a few fixed payloads (used to
evaluate the embedding on concrete inputs). -/
def reqParse : String → Except String JsonRpcRequest := fun s =>
  if s = "SUB" then
    .ok { id := "1", method := "eth_subscribe", params := some "newHeads" }
  else if s = "UNSUB" then
    .ok { id := "2", method := "eth_unsubscribe", params := some "0xabc" }
  else if s = "BADUNSUB" then
    .ok { id := "3", method := "eth_unsubscribe", params := none }
  else .error "expected value"

/-- Inserting a key that is absent appends the new binding. -/
theorem Subs.lookupKey_none_insert (k : String) (v : Nat) :
    ∀ s : Subs, Subs.lookupKey s k = none →
      Subs.insert s k v = s ++ [(k, v)] := by
  intro s
  induction s with
  | nil => intro _; rfl
  | cons kv rest ih =>
    intro h
    obtain ⟨k', v'⟩ := kv
    simp only [Subs.lookupKey] at h
    split at h
    · simp at h
    · rename_i hne
      simp only [Subs.insert, if_neg hne, List.cons_append, ih h]

/-- Removing a key appended to a table where it was absent yields its
value and the original table. -/
theorem Subs.removeKey_append (k : String) (v : Nat) :
    ∀ s : Subs, Subs.lookupKey s k = none →
      Subs.removeKey (s ++ [(k, v)]) k = (some v, s) := by
  intro s
  induction s with
  | nil => intro _; simp [Subs.removeKey]
  | cons kv rest ih =>
    intro h
    obtain ⟨k', v'⟩ := kv
    simp only [Subs.lookupKey] at h
    split at h
    · simp at h
    · rename_i hne
      simp only [List.cons_append, Subs.removeKey, if_neg hne]
      rw [List.append_eq, ih h]

/-- Removing an absent key changes nothing. -/
theorem Subs.removeKey_none (k : String) :
    ∀ s : Subs, Subs.lookupKey s k = none →
      Subs.removeKey s k = (none, s) := by
  intro s
  induction s with
  | nil => intro _; rfl
  | cons kv rest ih =>
    intro h
    obtain ⟨k', v'⟩ := kv
    simp only [Subs.lookupKey] at h
    split at h
    · simp at h
    · rename_i hne
      simp only [Subs.removeKey, if_neg hne, ih h]

/-- The writer forwards messages in queue order: what it writes is an
initial segment of what was enqueued. -/
theorem write_web3_socket_emits_in_order (sendOk : Message → Bool) :
    ∀ ms : List Message, ∃ rest, ms = write_web3_socket sendOk ms ++ rest := by
  intro ms
  induction ms with
  | nil => exact ⟨[], rfl⟩
  | cons m ms ih =>
    by_cases h : sendOk m
    · obtain ⟨rest, hr⟩ := ih
      refine ⟨rest, ?_⟩
      simp only [write_web3_socket, if_pos h, List.cons_append]
      rw [← hr]
    · exact ⟨m :: ms, by simp [write_web3_socket, h]⟩

/-- Claim C1, counterexample: the claim says `run()` returns an `Err`
whenever an awaited background handle resolves to an error.  It does
not: with a clean ctrl-c shutdown and one background handle resolving
to a task error, the drain counts the error (`background_errors = 1`)
yet `run` returns `Ok(())`. -/
theorem run_background_error_still_ok :
    (run (.ctrl_c (.ok ())) [.ok (.error "stat flush failed")]).result =
      .ok () ∧
    bgIsError (.ok (.error "stat flush failed")) = true ∧
    (run (.ctrl_c (.ok ())) [.ok (.error "stat flush failed")]).background_errors
      = 1 :=
  ⟨rfl, rfl, rfl⟩

/-- Claim C1, amended: after the drain, `run` returns `Ok(())` no
matter how many background handles resolved to errors (they are only
counted and logged); `run` returns an `Err` exactly when the fired
select branch carried one, and then no drain happens. -/
theorem run_result_amended (sel : SelectOutcome) (bg : List BgResult) :
    (sel.err = none →
      (run sel bg).result = .ok () ∧
      (run sel bg).background_errors = (bg.filter bgIsError).length) ∧
    (∀ e, sel.err = some e → (run sel bg).result = .error e) := by
  constructor
  · intro h
    simp [run, h]
  · intro e h
    simp [run, h]

/-- Claim C1, witness: the amended theorem applied to a clean shutdown
with one errored background handle. -/
theorem run_result_amended_witness :
    (run (.shutdown_recv (.ok ())) [.ok (.error "flush")]).result = .ok () ∧
    (run (.shutdown_recv (.ok ())) [.ok (.error "flush")]).background_errors
      = 1 := by
  have h :=
    (run_result_amended (.shutdown_recv (.ok ())) [.ok (.error "flush")]).1 rfl
  exact ⟨h.1, h.2⟩

/-- Claim C2: after a successful `eth_subscribe` whose response carries
subscription id `S` (stored under a fresh key), an `eth_unsubscribe`
whose raw params text is `S` removes the stored handle, aborts it, and
answers `true`; an `eth_unsubscribe` naming an id that is not
registered answers `false`, aborts nothing and leaves the table
unchanged. -/
theorem eth_subscribe_unsubscribe_roundtrip
    (app : AppModel) (parse : String → Except String JsonRpcRequest)
    (subPayload unsubPayload : String) (p1 p2 : JsonRpcRequest)
    (hdl : Nat) (resp : JsonRpcForwardedResponse) (S : RawValue) (subs : Subs)
    (hp1 : parse subPayload = .ok p1) (hm1 : p1.method = "eth_subscribe")
    (hsub : app.eth_subscribe p1 = .ok (hdl, resp)) (hres : resp.result = some S)
    (hp2 : parse unsubPayload = .ok p2) (hm2 : p2.method = "eth_unsubscribe")
    (hpar : p2.params = some S) (hfresh : Subs.lookupKey subs S = none) :
    handle_socket_payload app parse subPayload subs =
      some ⟨.text resp, subs ++ [(S, hdl)], []⟩ ∧
    handle_socket_payload app parse unsubPayload (subs ++ [(S, hdl)]) =
      some ⟨.text (JsonRpcForwardedResponse.from_value (jsonBool true) p2.id),
            subs, [hdl]⟩ ∧
    (∀ (payload3 : String) (p3 : JsonRpcRequest) (T : RawValue) (subs2 : Subs),
      parse payload3 = .ok p3 → p3.method = "eth_unsubscribe" →
      p3.params = some T → Subs.lookupKey subs2 T = none →
      handle_socket_payload app parse payload3 subs2 =
        some ⟨.text (JsonRpcForwardedResponse.from_value (jsonBool false) p3.id),
              subs2, []⟩) := by
  refine ⟨?_, ?_, ?_⟩
  · simp [handle_socket_payload, hp1, hm1, hsub, hres,
      Subs.lookupKey_none_insert S hdl subs hfresh]
  · simp [handle_socket_payload, hp2, hm2, hpar,
      Subs.removeKey_append S hdl subs hfresh]
  · intro payload3 p3 T subs2 hp3 hm3 hpar3 hfree
    simp [handle_socket_payload, hp3, hm3, hpar3,
      Subs.removeKey_none T subs2 hfree]

/-- Claim C2, witness: the roundtrip evaluated with the sample app on
concrete payloads. -/
theorem eth_subscribe_unsubscribe_roundtrip_witness :
    handle_socket_payload subApp reqParse "SUB" [] =
      some ⟨.text { id := "1", result := some "0xabc", error := none },
            [("0xabc", 7)], []⟩ ∧
    handle_socket_payload subApp reqParse "UNSUB" [("0xabc", 7)] =
      some ⟨.text (JsonRpcForwardedResponse.from_value (jsonBool true) "2"),
            [], [7]⟩ ∧
    handle_socket_payload subApp reqParse "UNSUB" [("zzz", 9)] =
      some ⟨.text (JsonRpcForwardedResponse.from_value (jsonBool false) "2"),
            [("zzz", 9)], []⟩ := by
  have h := eth_subscribe_unsubscribe_roundtrip subApp reqParse "SUB" "UNSUB"
    { id := "1", method := "eth_subscribe", params := some "newHeads" }
    { id := "2", method := "eth_unsubscribe", params := some "0xabc" }
    7 { id := "1", result := some "0xabc", error := none } "0xabc" []
    rfl rfl rfl rfl rfl rfl rfl rfl
  exact ⟨h.1, h.2.1, h.2.2 "UNSUB" _ "0xabc" [("zzz", 9)] rfl rfl rfl rfl⟩

/-- Claim C3: `synced()` is true exactly when the published snapshot's
`conns` list is non-empty; with `head_block = none` and `conns = []`
it is false. -/
theorem synced_iff_conns_nonempty (w : Web3Connections) :
    (w.synced = true ↔ w.synced_connections.conns ≠ []) ∧
    (w.synced_connections.head_block = none ∧ w.synced_connections.conns = [] →
      w.synced = false) := by
  constructor
  · simp [Web3Connections.synced]
  · rintro ⟨-, hc⟩
    simp [Web3Connections.synced, hc]

/-- Claim C3, witness: the empty snapshot is not synced. -/
theorem synced_iff_conns_nonempty_witness :
    (Web3Connections.mk (SyncedConnections.mk none [])).synced = false :=
  (synced_iff_conns_nonempty (Web3Connections.mk (SyncedConnections.mk none []))).2
    ⟨rfl, rfl⟩

/-- Claim C4: a text payload that fails to parse as a `JsonRpcRequest`
makes the proxy enqueue exactly one fabricated error response whose id
is the JSON text `null`. -/
theorem unparseable_payload_null_id
    (app : AppModel) (parse : String → Except String JsonRpcRequest)
    (subs : Subs) (payload : String) (e : String)
    (h : parse payload = .error e) :
    read_step app parse subs (.text payload) =
      some ⟨[.text (JsonRpcForwardedResponse.from_anyhow_error e "null")],
            subs, [], true⟩ ∧
    (JsonRpcForwardedResponse.from_anyhow_error e "null").id = "null" := by
  constructor
  · simp [read_step, handle_socket_payload, h]
  · rfl

/-- Claim C4, witness: the sample parse function rejecting a garbage
payload. -/
theorem unparseable_payload_null_id_witness :
    read_step mockApp reqParse [] (.text "garbage") =
      some ⟨[.text (JsonRpcForwardedResponse.from_anyhow_error
              "expected value" "null")],
            [], [], true⟩ :=
  (unparseable_payload_null_id mockApp reqParse [] "garbage" "expected value"
    rfl).1

/-- Claim C5: a Ping with payload `x` produces exactly one Pong
carrying `x` and the loop continues; an unsolicited Pong produces no
message and the loop continues. -/
theorem ping_pong_behavior
    (app : AppModel) (parse : String → Except String JsonRpcRequest)
    (subs : Subs) (x : List Nat) :
    read_step app parse subs (.ping x) = some ⟨[.pong x], subs, [], true⟩ ∧
    read_step app parse subs (.pong x) = some ⟨[], subs, [], true⟩ :=
  ⟨rfl, rfl⟩

/-- Claim C6, counterexample: handling a Binary frame is not total.
On the payload `[255]`, which is not valid UTF-8,
`from_utf8_mut(&mut payload).unwrap()` panics (modelled as `none`). -/
theorem binary_invalid_utf8_panics :
    read_step mockApp reqParse [] (.binary [255]) = none := rfl

/-- Claim C6, amended: a Binary frame whose payload is valid UTF-8 is
handled exactly like a Text frame carrying the decoded characters, but
handling is not total: a Binary frame with invalid UTF-8 (for example
`[255]`) makes the read task panic instead of producing a response. -/
theorem binary_utf8_amended
    (app : AppModel) (parse : String → Except String JsonRpcRequest)
    (subs : Subs) (bs : List Nat) (s : String)
    (h : utf8DecodeString bs = some s) :
    read_step app parse subs (.binary bs) = read_step app parse subs (.text s) ∧
    read_step app parse subs (.binary [255]) = none := by
  constructor
  · simp [read_step, h]
  · rfl

/-- Claim C6, witness: the bytes `[104, 105]` decode to `"hi"` and are
handled like the text frame `"hi"`. -/
theorem binary_utf8_amended_witness :
    read_step mockApp reqParse [] (.binary [104, 105]) =
      read_step mockApp reqParse [] (.text "hi") :=
  (binary_utf8_amended mockApp reqParse [] [104, 105] "hi" rfl).1

/-- Claim C7: frames are processed strictly in arrival order: a frame
whose handling continues the loop contributes its messages to the
outgoing channel before anything produced by the following frames, and
the writer forwards the channel's messages in that same order (its
output is an initial segment of what was enqueued). -/
theorem frames_processed_in_order
    (app : AppModel) (parse : String → Except String JsonRpcRequest)
    (subs : Subs) (f : Frame) (fs : List Frame) (o : StepOutcome)
    (h : read_step app parse subs f = some o) (hc : o.continues = true) :
    read_web3_socket app parse subs (f :: fs) =
      (read_web3_socket app parse o.subscriptions fs).map
        (fun ms => o.sent ++ ms) ∧
    ∀ (sendOk : Message → Bool) (ms : List Message),
      ∃ rest, ms = write_web3_socket sendOk ms ++ rest := by
  constructor
  · simp [read_web3_socket, h, hc]
  · intro sendOk ms
    exact write_web3_socket_emits_in_order sendOk ms

/-- Claim C7, witness: a ping followed by a close; the pong precedes
everything the close contributes, and the writer preserves the order of
a concrete queue. -/
theorem frames_processed_in_order_witness :
    (read_web3_socket mockApp reqParse [] [Frame.ping [1], Frame.close] =
      (read_web3_socket mockApp reqParse [] [Frame.close]).map
        (fun ms => [Message.pong [1]] ++ ms)) ∧
    ∃ rest, [Message.pong [1]] =
      write_web3_socket (fun _ => true) [Message.pong [1]] ++ rest := by
  have h := frames_processed_in_order mockApp reqParse [] (.ping [1]) [.close]
    ⟨[.pong [1]], [], [], true⟩ rfl rfl
  exact ⟨h.1, h.2 (fun _ => true) [Message.pong [1]]⟩

/-- Claim C8, counterexample: the claim says that on any main handle
exiting, `run` broadcasts shutdown and awaits every background handle.
When a main handle resolves with an error, the select branch does
`return Err(e)` at once: nothing is broadcast and the (non-empty) list
of background handles is left unawaited. -/
theorem run_select_error_skips_drain :
    (run (.app_handles (.error "boom")) [.ok (.ok ())]).broadcast_sent
      = false ∧
    (run (.app_handles (.error "boom")) [.ok (.ok ())]).drained = [] ∧
    (run (.app_handles (.error "boom")) [.ok (.ok ())]).result =
      .error "boom" :=
  ⟨rfl, rfl, rfl⟩

/-- Claim C8, amended: when the fired select branch resolves cleanly
(ctrl-c delivered, shutdown message received, or a main handle exited
without error), `run` broadcasts the shutdown signal and awaits every
background handle before returning; when the branch carries an error,
`run` returns it immediately without broadcasting or draining. -/
theorem run_shutdown_drain_amended (sel : SelectOutcome) (bg : List BgResult)
    (h : sel.err = none) :
    (run sel bg).broadcast_sent = true ∧ (run sel bg).drained = bg := by
  simp [run, h]

/-- Claim C8, witness: a clean ctrl-c shutdown drains both background
handles. -/
theorem run_shutdown_drain_amended_witness :
    (run (.ctrl_c (.ok ())) [.ok (.ok ()), .error "join"]).broadcast_sent
      = true ∧
    (run (.ctrl_c (.ok ())) [.ok (.ok ()), .error "join"]).drained =
      [.ok (.ok ()), .error "join"] :=
  run_shutdown_drain_amended (.ctrl_c (.ok ())) [.ok (.ok ()), .error "join"]
    rfl

/-- Claim C9: an authorized non-upgrade request on the plain path
redirects to `redirect_public_url`; on the keyed path it redirects to
`redirect_user_url` rendered with exactly the `authorized_request`
data binding; upgrade requests are upgraded. -/
theorem redirect_urls (config : AppConfig) (authorized_request : String) :
    websocket_handler config none = .redirect config.redirect_public_url ∧
    websocket_handler_with_key config authorized_request none =
      .redirect (render_template config.redirect_user_url
        [("authorized_request", authorized_request)]) ∧
    websocket_handler config (some ()) = .upgrade ∧
    websocket_handler_with_key config authorized_request (some ()) = .upgrade :=
  ⟨rfl, rfl, rfl, rfl⟩

/-- Claim C10: a parseable `eth_unsubscribe` request whose `params`
field is absent makes `handle_socket_payload` panic
(`payload.params.unwrap()`), modelled as `none`, instead of answering
with an error response. -/
theorem eth_unsubscribe_missing_params_panics
    (app : AppModel) (parse : String → Except String JsonRpcRequest)
    (subs : Subs) (payload : String) (p : JsonRpcRequest)
    (hp : parse payload = .ok p) (hm : p.method = "eth_unsubscribe")
    (hpar : p.params = none) :
    handle_socket_payload app parse payload subs = none := by
  simp [handle_socket_payload, hp, hm, hpar]

/-- Claim C10, witness: the concrete params-less unsubscribe payload. -/
theorem eth_unsubscribe_missing_params_panics_witness :
    handle_socket_payload mockApp reqParse "BADUNSUB" [] = none :=
  eth_unsubscribe_missing_params_panics mockApp reqParse [] "BADUNSUB"
    { id := "3", method := "eth_unsubscribe", params := none } rfl rfl rfl

end Web3Proxy
